import Mathlib

/-!
Shallow embedding of the hivemind DHT node (src/hivemind/dht/protocol.py and
src/hivemind/dht/node.py) for checking the natural-language specification.

Identifiers are natural numbers (`DHTID`), endpoints are opaque (host, port)
pairs, expiration times and monotonic clock readings are integers.  Python
attribute errors and the `NotImplementedError` stub are made explicit through
an `Except PyError` result type.  The routing table and the local value store
live in modules that are not part of the sources (routing.py and the storage
backing `node.store` / `node.get`), so those two collaborators are modelled
from the specification text; everything else is translated directly from the
Python sources.
-/

namespace Hivemind

abbrev DHTID := Nat

abbrev Endpoint := Nat × Nat

abbrev DHTValue := Nat

abbrev DHTExpiration := Int

/-- XOR distance between two identifiers, as in the Kademlia metric. -/
def xorDistance (a b : DHTID) : Nat := Nat.xor a b

/-- Errors of the Python code that the embedding makes explicit: an
`AttributeError` on a named missing attribute, `NotImplementedError`, a
`ValueError` with its message, and the compile-time rejection of `await`
inside a plain (non-async) `def`, which makes the containing function
impossible to execute at all. -/
inductive PyError where
  | attributeError (attr : String)
  | notImplementedError
  | valueError (msg : String)
  | awaitOutsideAsync
deriving Repr, DecidableEq

/-- Modelled from the spec: the Routing Table of routing.py is not among the
sources.  The spec describes it as a collection of known peers supporting
membership lookup, indexing by identifier, nearest-neighbour queries, and
insert-or-refresh on observed contacts.  The bucket capacity / replacement
policy is abstracted away here (no claim under proof depends on it): the table
is the list of known `(identifier, endpoint)` entries, most recently seen
last. -/
structure RoutingTable where
  peers : List (DHTID × Endpoint)
deriving Repr, DecidableEq

/-- Modelled from the spec: lookup "is identifier X known" / `table[X]`. -/
def RoutingTable.findEndpoint (rt : RoutingTable) (id : DHTID) : Option Endpoint :=
  (rt.peers.find? (fun p => p.1 == id)).map (fun p => p.2)

/-- Modelled from the spec: membership test `X in routing_table`. -/
def RoutingTable.contains (rt : RoutingTable) (id : DHTID) : Bool :=
  (rt.findEndpoint id).isSome

/-- Modelled from the spec: `register_request_from(endpoint, id)` records an
inbound (hence responded) contact by insert-or-refresh: the peer moves to the
most-recently-seen position. -/
def RoutingTable.register_request_from (rt : RoutingTable) (sender : Endpoint)
    (senderId : DHTID) : RoutingTable :=
  ⟨(rt.peers.filter (fun p => p.1 != senderId)) ++ [(senderId, sender)]⟩

/-- Modelled from the spec: `register_request_to(endpoint, id, responded)`
inserts-or-refreshes the peer on a responded contact and records nothing new
on a timed-out one. -/
def RoutingTable.register_request_to (rt : RoutingTable) (recipient : Endpoint)
    (recipientId : Option DHTID) (responded : Bool) : RoutingTable :=
  match responded, recipientId with
  | true, some id => ⟨(rt.peers.filter (fun p => p.1 != id)) ++ [(id, recipient)]⟩
  | _, _ => rt

/-- Modelled from the spec: `nearest_neighbors(target, k, exclude)` returns up
to `k` known peers ordered by ascending XOR distance to `target`, ties broken
by identifier value, excluding one identifier. -/
def RoutingTable.get_nearest_neighbors (rt : RoutingTable) (target : DHTID)
    (k : Nat) (exclude : DHTID) : List DHTID :=
  let candidates := (rt.peers.map (fun p => p.1)).filter (fun id => id != exclude)
  let sorted := candidates.mergeSort (fun a b =>
    xorDistance a target < xorDistance b target ||
      (xorDistance a target == xorDistance b target && a ≤ b))
  sorted.take k

/-- Modelled from the spec: the Local Store, a key to (value, expiration)
mapping; its code backs `node.get` / `node.store` and is not among the
sources. -/
structure LocalStore where
  records : List (DHTID × DHTValue × DHTExpiration)
deriving Repr, DecidableEq

/-- Modelled from the spec: `get(key, now)` returns the stored record iff its
expiration time is still in the future, otherwise behaves as if absent. -/
def LocalStore.get (s : LocalStore) (key : DHTID) (now : DHTExpiration) :
    Option DHTValue × Option DHTExpiration :=
  match s.records.find? (fun r => r.1 == key) with
  | some (_, v, t) => if now < t then (some v, some t) else (none, none)
  | none => (none, none)

/-- The state of the owning DHT node that the protocol reads: its identifier
(`self.node.id`) and its local value store (`self.node.get`). -/
structure NodeState where
  id : DHTID
  localStore : LocalStore
deriving Repr, DecidableEq

/-- `KademliaProtocol.__init__`: stores the node, the parameters and a fresh
routing table.  Note that `__init__` never defines an attribute `node_id`;
only `node` exists (protocol.py line 24). -/
structure KademliaProtocol where
  node : NodeState
  bucket_size : Nat
  num_neighbors : Nat
  routing_table : RoutingTable
deriving Repr, DecidableEq

/-- `KademliaProtocol.rpc_find_node` (protocol.py lines 56-67): register the
sender, then either return the directly-known target with our node id, or fall
through to the nearest-neighbour branch.  The fallback `return` expression
reads `self.node_id`, an attribute `__init__` never defines, so evaluating it
raises `AttributeError` instead of producing the pair. -/
def rpc_find_node (p : KademliaProtocol) (sender : Endpoint) (senderId : DHTID)
    (keyNode : DHTID) :
    RoutingTable × Except PyError (List (DHTID × Endpoint) × DHTID) :=
  let rt := p.routing_table.register_request_from sender senderId
  if rt.contains keyNode then
    (rt, Except.ok ([(keyNode, (rt.findEndpoint keyNode).getD (0, 0))], p.node.id))
  else
    let _neighbor_ids := rt.get_nearest_neighbors keyNode p.num_neighbors senderId
    (rt, Except.error (PyError.attributeError "node_id"))

/-- `KademliaProtocol.rpc_find_value` (protocol.py lines 80-88): concatenates
the local store's `(value, expiration)` pair with the result of
`rpc_find_node` on the same sender and key; any error raised by
`rpc_find_node` propagates. -/
def rpc_find_value (p : KademliaProtocol) (sender : Endpoint) (senderId : DHTID)
    (key : DHTID) (now : DHTExpiration) :
    RoutingTable ×
      Except PyError (Option DHTValue × Option DHTExpiration ×
        List (DHTID × Endpoint) × DHTID) :=
  let vt := p.node.localStore.get key now
  match rpc_find_node p sender senderId key with
  | (rt, Except.ok (neighbors, ownId)) => (rt, Except.ok (vt.1, vt.2, neighbors, ownId))
  | (rt, Except.error e) => (rt, Except.error e)

/-- Routing-table registration calls issued by the client-side callers, kept
as an explicit trace so that call counts and arguments can be stated. -/
inductive RegisterEvent where
  | fromPeer (sender : Endpoint) (senderId : DHTID)
  | toPeer (recipient : Endpoint) (recipientId : Option DHTID) (responded : Bool)
deriving Repr, DecidableEq

/-- Number of `register_request_to` calls in a trace. -/
def countRegisterTo (events : List RegisterEvent) : Nat :=
  (events.filter (fun e => match e with
    | RegisterEvent.toPeer _ _ _ => true
    | _ => false)).length

/-- `KademliaProtocol.call_ping` (protocol.py lines 32-36).  `reply` is the
transport's answer: `some id` when the recipient responded with its
identifier, `none` on timeout (rpcudp then yields `(False, None)`).  The
`register_request_to` call is sequenced before the return value, which the
embedding records as the event trace emitted alongside the result. -/
def call_ping (recipient : Endpoint) (reply : Option DHTID) :
    List RegisterEvent × Option DHTID :=
  let responded := reply.isSome
  ([RegisterEvent.toPeer recipient reply responded], reply)

/-- Results of `call_store` as the code produces them: the raw response tuple
`(accepted, node_id)` when the peer responded (protocol.py line 54 returns
`response`, not the destructured `status`), or a bare boolean. -/
inductive StoreCallResult where
  | pair (accepted : Bool) (nodeId : DHTID)
  | flag (b : Bool)
deriving Repr, DecidableEq

/-- `KademliaProtocol.call_store` (protocol.py lines 45-54): destructures the
response, registers the contact, and returns `response if responded else
False` — the full tuple on success, `False` on timeout. -/
def call_store (recipient : Endpoint) (key : DHTID) (value : DHTValue)
    (expiration_time : DHTExpiration) (reply : Option (Bool × DHTID)) :
    List RegisterEvent × StoreCallResult :=
  match reply with
  | some (status, recipientNodeId) =>
      ([RegisterEvent.toPeer recipient (some recipientNodeId) true],
        StoreCallResult.pair status recipientNodeId)
  | none =>
      ([RegisterEvent.toPeer recipient none false], StoreCallResult.flag false)

/-- `KademliaProtocol.call_find_node` as it stands (protocol.py lines 69-78):
the function is declared `def`, not `async def`, yet its body contains
`await` at line 75.  Python rejects `await` outside an async function at
compile time, so this caller can never execute: it emits no registration
event and never produces a neighbour list, whatever the transport would have
replied. -/
def call_find_node (recipient : Endpoint) (keyNode : DHTID)
    (reply : Option (List (DHTID × Endpoint) × DHTID)) :
    Except PyError (List RegisterEvent × List (DHTID × Endpoint)) :=
  Except.error PyError.awaitOutsideAsync

/-- The body of `call_find_node` as written (protocol.py lines 75-78), i.e.
how the caller would behave had it been declared `async def` like its
siblings `call_ping` and `call_store`: destructure the response (or
`([], None)` on timeout), register the contact, return the neighbours. -/
def call_find_node_body (recipient : Endpoint) (keyNode : DHTID)
    (reply : Option (List (DHTID × Endpoint) × DHTID)) :
    List RegisterEvent × List (DHTID × Endpoint) :=
  match reply with
  | some (neighbors, recipientNodeId) =>
      ([RegisterEvent.toPeer recipient (some recipientNodeId) true], neighbors)
  | none =>
      ([RegisterEvent.toPeer recipient none false], [])

/-- `KademliaProtocol.call_find_value` as it stands (protocol.py lines
90-103): declared `def`, not `async def`, yet its body contains `await` at
line 100 — the same compile-time rejection as `call_find_node`, so this
caller can never execute either. -/
def call_find_value (recipient : Endpoint) (key : DHTID)
    (reply : Option (Option DHTValue × Option DHTExpiration ×
      List (DHTID × Endpoint) × DHTID)) :
    Except PyError (List RegisterEvent ×
      (Option DHTValue × Option DHTExpiration × List (DHTID × Endpoint))) :=
  Except.error PyError.awaitOutsideAsync

/-- The body of `call_find_value` as written (protocol.py lines 100-103),
i.e. how the caller would behave had it been declared `async def`: return
`(value, expiration_time, neighbors)` from the response, or
`(None, None, [])` on timeout, registering the contact either way before
returning. -/
def call_find_value_body (recipient : Endpoint) (key : DHTID)
    (reply : Option (Option DHTValue × Option DHTExpiration ×
      List (DHTID × Endpoint) × DHTID)) :
    List RegisterEvent ×
      (Option DHTValue × Option DHTExpiration × List (DHTID × Endpoint)) :=
  match reply with
  | some (v, t, neighbors, recipientNodeId) =>
      ([RegisterEvent.toPeer recipient (some recipientNodeId) true], (v, t, neighbors))
  | none =>
      ([RegisterEvent.toPeer recipient none false], (none, none, []))

/-- One bootstrap ping issued to an initial peer.  `completesAt` is the
monotonic time, counted from the start of bootstrap, at which the `call_ping`
task finishes; `result` is the task's value — `some id` when the peer answered
within the protocol's own timeout, `none` otherwise (`call_ping` then returns
`None`). -/
structure PingTask where
  peer : Endpoint
  completesAt : Int
  result : Option DHTID
deriving Repr, DecidableEq

/-- Time at which `asyncio.wait(tasks, timeout, return_when=FIRST_COMPLETED)`
returns: the earliest task completion if one happens within the timeout,
otherwise the timeout itself. -/
def firstCompletedElapsed (tasks : List PingTask) (timeout : Int) : Int :=
  match (tasks.map (fun t => t.completesAt)).min? with
  | some m => if m ≤ timeout then m else timeout
  | none => timeout

/-- Tasks done by the given absolute deadline, and those still pending. -/
def waitSplit (tasks : List PingTask) (deadline : Int) : List PingTask × List PingTask :=
  (tasks.filter (fun t => decide (t.completesAt ≤ deadline)),
    tasks.filter (fun t => decide (deadline < t.completesAt)))

/-- `asyncio.wait` on a set of tasks with an absolute deadline: raises
`ValueError` when handed an empty collection, otherwise returns the
`(done, pending)` split. -/
def asyncioWait (tasks : List PingTask) (deadline : Int) :
    Except PyError (List PingTask × List PingTask) :=
  if tasks.isEmpty then
    Except.error (PyError.valueError "Set of Tasks/Futures is empty")
  else Except.ok (waitSplit tasks deadline)

/-- Observable trace of `DHTNode.__init__`'s bootstrap (node.py lines 65-84):
how long the first wave waited, the timeout handed to the second
`asyncio.wait`, which tasks each wave collected, which stragglers were
cancelled, the gathered peer identifiers, whether the bootstrap-failure
warning fired, and the target of the closing `find_nearest_nodes` lookup. -/
structure BootstrapTrace where
  phase1Elapsed : Int
  firstFinished : List PingTask
  phase2Timeout : Int
  finishedInTime : List PingTask
  cancelled : List PingTask
  peerIds : List DHTID
  warned : Bool
  finalLookupTarget : DHTID
deriving Repr, DecidableEq

/-- The first `asyncio.wait` of bootstrap (node.py lines 69-70): all ping
tasks waited on with `timeout=wait_timeout` and `FIRST_COMPLETED`, split into
`(first_finished, remaining_tasks)`; raises `ValueError` when `initial_peers`
is empty. -/
def bootstrapPhase1 (initialPeers : List PingTask) (wait_timeout : Int) :
    Except PyError (List PingTask × List PingTask) :=
  asyncioWait initialPeers (firstCompletedElapsed initialPeers wait_timeout)

/-- The second `asyncio.wait` of bootstrap (node.py lines 74-75): the tasks
still pending after phase 1, waited on with timeout
`bootstrap_timeout - time_to_first_response`, hence until the absolute
deadline `t1 + max (bootstrap_timeout - t1) 0` (a non-positive timeout makes
the wait return at once, collecting nothing new), split into
`(finished_in_time, stragglers)`.  When phase 1 leaves no pending task —
e.g. a single initial peer whose ping finishes within `wait_timeout` — this
wait receives an empty set and raises `ValueError`. -/
def bootstrapPhase2 (initialPeers : List PingTask)
    (wait_timeout bootstrap_timeout : Int) :
    Except PyError (List PingTask × List PingTask) :=
  match bootstrapPhase1 initialPeers wait_timeout with
  | Except.error e => Except.error e
  | Except.ok w1 =>
      asyncioWait w1.2 (firstCompletedElapsed initialPeers wait_timeout +
        max (bootstrap_timeout - firstCompletedElapsed initialPeers wait_timeout) 0)

/-- `DHTNode.__init__` bootstrap (node.py lines 65-84): ping all initial peers
concurrently; wait for the first completion bounded by `wait_timeout`;
measure `time_to_first_response`; wait for the remaining tasks with timeout
`bootstrap_timeout - time_to_first_response`; cancel every straggler; gather
the non-`None` ping results; warn when none responded despite a non-empty
peer list; finally run the `find_nearest_nodes` lookup for the node's own
identifier (beam_search itself lives in the absent search.py, so only the
lookup's target is recorded).  A `ValueError` raised by either wait aborts
construction before the cancellation, warning and lookup steps. -/
def bootstrap (nodeId : DHTID) (initialPeers : List PingTask)
    (wait_timeout bootstrap_timeout : Int) : Except PyError BootstrapTrace :=
  match bootstrapPhase1 initialPeers wait_timeout with
  | Except.error e => Except.error e
  | Except.ok w1 =>
    match bootstrapPhase2 initialPeers wait_timeout bootstrap_timeout with
    | Except.error e => Except.error e
    | Except.ok w2 =>
        Except.ok
          { phase1Elapsed := firstCompletedElapsed initialPeers wait_timeout,
            firstFinished := w1.1,
            phase2Timeout := bootstrap_timeout -
              firstCompletedElapsed initialPeers wait_timeout,
            finishedInTime := w2.1, cancelled := w2.2,
            peerIds := (w1.1 ++ w2.1).filterMap (fun t => t.result),
            warned := ((w1.1 ++ w2.1).filterMap (fun t => t.result)).isEmpty &&
              !initialPeers.isEmpty,
            finalLookupTarget := nodeId }

/-- A `k`-bucket as node.py reads it: half-open identifier range
`[lower, upper)` and the time of its last update. -/
structure KBucket where
  lower : Nat
  upper : Nat
  last_updated : Int
deriving Repr, DecidableEq

/-- The stale-bucket selection of `DHTNode.refresh_stale_buckets` (node.py
lines 111-113): buckets whose `last_updated` precedes
`now - staleness_timeout`. -/
def staleBucketsOf (buckets : List KBucket) (staleness_timeout now : Int) :
    List KBucket :=
  buckets.filter (fun b => decide (b.last_updated < now - staleness_timeout))

/-- `DHTNode.refresh_stale_buckets` (node.py lines 110-118) as it executes:
after selecting the stale buckets, the comprehension at line 115 evaluates
`random.randint`, but line 5 of node.py is `from random import random`, so
`random` is the float-returning function and the attribute access raises
`AttributeError` as soon as there is a stale bucket; with no stale bucket the
comprehension is empty and the method reaches its `raise
NotImplementedError("TODO")`.  Either way no lookup is ever issued. -/
def refresh_stale_buckets (buckets : List KBucket) (staleness_timeout now : Int) :
    Except PyError (List DHTID) :=
  let stale := staleBucketsOf buckets staleness_timeout now
  if stale.isEmpty then Except.error PyError.notImplementedError
  else Except.error (PyError.attributeError "randint")

/-! Concrete fixtures used to evaluate the definitions. -/

def exampleProtocol : KademliaProtocol := ⟨⟨1, ⟨[]⟩⟩, 20, 3, ⟨[]⟩⟩

def protocolWithValue : KademliaProtocol := ⟨⟨1, ⟨[(5, 42, 100)]⟩⟩, 20, 3, ⟨[]⟩⟩

def examplePeers : List PingTask := [⟨(1, 1), 2, some 7⟩, ⟨(2, 2), 10, none⟩]

def silentPeers : List PingTask := [⟨(3, 3), 1, none⟩]

def silentPairPeers : List PingTask := [⟨(3, 3), 1, none⟩, ⟨(4, 4), 6, none⟩]

def soloPeer : List PingTask := [⟨(1, 1), 2, some 7⟩]

/-- The trace `bootstrap 42 examplePeers 5 8` produces. -/
def exampleBootTrace : BootstrapTrace :=
  ⟨2, [⟨(1, 1), 2, some 7⟩], 6, [], [⟨(2, 2), 10, none⟩], [7], false, 42⟩

/-- The trace `bootstrap 42 silentPairPeers 5 8` produces. -/
def silentBootTrace : BootstrapTrace :=
  ⟨1, [⟨(3, 3), 1, none⟩], 7, [⟨(4, 4), 6, none⟩], [], [], true, 42⟩

def exampleBuckets : List KBucket := [⟨0, 16, 100⟩, ⟨16, 32, 900⟩]

/-! Helper lemmas inverting the bootstrap stages. -/

lemma waitSplit_done_subset {tasks : List PingTask} {d : Int} {t : PingTask}
    (h : t ∈ (waitSplit tasks d).1) : t ∈ tasks :=
  (List.mem_filter.1 h).1

lemma waitSplit_pending_subset {tasks : List PingTask} {d : Int} {t : PingTask}
    (h : t ∈ (waitSplit tasks d).2) : t ∈ tasks :=
  (List.mem_filter.1 h).1

lemma bootstrapPhase1_ok_inv {initialPeers : List PingTask} {w : Int}
    {w1 : List PingTask × List PingTask}
    (h : bootstrapPhase1 initialPeers w = Except.ok w1) :
    w1 = waitSplit initialPeers (firstCompletedElapsed initialPeers w) ∧
      initialPeers.isEmpty = false := by
  unfold bootstrapPhase1 asyncioWait at h
  split at h
  · exact Except.noConfusion h
  · injection h with h
    rename_i hemp
    exact ⟨h.symm, by simpa using hemp⟩

lemma bootstrapPhase2_ok_inv {initialPeers : List PingTask} {w B : Int}
    {w1 w2 : List PingTask × List PingTask}
    (h1 : bootstrapPhase1 initialPeers w = Except.ok w1)
    (h2 : bootstrapPhase2 initialPeers w B = Except.ok w2) :
    w2 = waitSplit w1.2 (firstCompletedElapsed initialPeers w +
      max (B - firstCompletedElapsed initialPeers w) 0) := by
  unfold bootstrapPhase2 at h2
  simp only [h1] at h2
  unfold asyncioWait at h2
  split at h2
  · exact Except.noConfusion h2
  · injection h2 with h2
    exact h2.symm

lemma bootstrap_ok_inv {nodeId : DHTID} {initialPeers : List PingTask}
    {w B : Int} {tr : BootstrapTrace}
    (h : bootstrap nodeId initialPeers w B = Except.ok tr) :
    tr = { phase1Elapsed := firstCompletedElapsed initialPeers w,
           firstFinished := (waitSplit initialPeers
             (firstCompletedElapsed initialPeers w)).1,
           phase2Timeout := B - firstCompletedElapsed initialPeers w,
           finishedInTime := (waitSplit (waitSplit initialPeers
             (firstCompletedElapsed initialPeers w)).2
             (firstCompletedElapsed initialPeers w +
               max (B - firstCompletedElapsed initialPeers w) 0)).1,
           cancelled := (waitSplit (waitSplit initialPeers
             (firstCompletedElapsed initialPeers w)).2
             (firstCompletedElapsed initialPeers w +
               max (B - firstCompletedElapsed initialPeers w) 0)).2,
           peerIds := ((waitSplit initialPeers
             (firstCompletedElapsed initialPeers w)).1 ++
             (waitSplit (waitSplit initialPeers
               (firstCompletedElapsed initialPeers w)).2
               (firstCompletedElapsed initialPeers w +
                 max (B - firstCompletedElapsed initialPeers w) 0)).1).filterMap
             (fun t => t.result),
           warned := (((waitSplit initialPeers
             (firstCompletedElapsed initialPeers w)).1 ++
             (waitSplit (waitSplit initialPeers
               (firstCompletedElapsed initialPeers w)).2
               (firstCompletedElapsed initialPeers w +
                 max (B - firstCompletedElapsed initialPeers w) 0)).1).filterMap
             (fun t => t.result)).isEmpty && !initialPeers.isEmpty,
           finalLookupTarget := nodeId } ∧
      initialPeers.isEmpty = false := by
  unfold bootstrap at h
  rcases hp1 : bootstrapPhase1 initialPeers w with e | w1
  · simp only [hp1] at h
    exact Except.noConfusion h
  · simp only [hp1] at h
    rcases hp2 : bootstrapPhase2 initialPeers w B with e | w2
    · simp only [hp2] at h
      exact Except.noConfusion h
    · simp only [hp2] at h
      obtain ⟨hw1, hne⟩ := bootstrapPhase1_ok_inv hp1
      have hw2 := bootstrapPhase2_ok_inv hp1 hp2
      subst hw1
      subst hw2
      injection h with h
      exact ⟨h.symm, hne⟩

/-! Theorems about the protocol handlers and callers. -/

/-- C1: the claim says an inbound `find_node` whose target is not directly
known returns up to `num_neighbors` nearest peers plus the handler's own node
id.  On the code this fails: with target 5 absent from the (empty) routing
table, `rpc_find_node` records the sender 7 at (9, 9) and then evaluates the
undefined attribute `self.node_id`, raising `AttributeError` instead of
returning. -/
theorem rpc_find_node_crashes_on_unknown_target :
    rpc_find_node exampleProtocol (9, 9) 7 5 =
      (⟨[(7, (9, 9))]⟩, Except.error (PyError.attributeError "node_id")) := by
  rfl

/-- C2: the claim says all four client-side callers invoke
`register_request_to` exactly once per call, before handing back the result.
`call_ping` and `call_store` do (shown here on a responded input; their
traces are the same singleton on a timeout), but `call_find_node` and
`call_find_value` are plain `def`s containing `await` — rejected at compile
time — so they can never run and never register anything; their bodies as
written would have registered exactly once. -/
theorem callers_register_request_to_once_or_never_run :
    countRegisterTo (call_ping (2, 2) (some 8)).1 = 1 ∧
    countRegisterTo (call_store (2, 2) 10 99 50 (some (true, 8))).1 = 1 ∧
    call_find_node (2, 2) 10 (some ([(3, (4, 4))], 8)) =
      Except.error PyError.awaitOutsideAsync ∧
    call_find_value (2, 2) 10 (some (some 42, some 100, [], 8)) =
      Except.error PyError.awaitOutsideAsync ∧
    countRegisterTo (call_find_node_body (2, 2) 10 (some ([(3, (4, 4))], 8))).1 = 1 ∧
    countRegisterTo
      (call_find_value_body (2, 2) 10 (some (some 42, some 100, [], 8))).1 = 1 := by
  exact ⟨rfl, rfl, rfl, rfl, rfl, rfl⟩

/-- C3: the claim (and the function's own docstring) says `call_store`
returns the recipient's boolean accepted flag when the recipient responded.
The code instead returns the raw response — the whole `(accepted, node_id)`
pair: here the reply `(True, 8)` yields `StoreCallResult.pair true 8`, not a
bare boolean flag (the destructured `status` variable is never used). -/
theorem call_store_returns_tuple_on_response :
    call_store (2, 2) 10 99 50 (some (true, 8)) =
      ([RegisterEvent.toPeer (2, 2) (some 8) true],
        StoreCallResult.pair true 8) := by
  rfl

/-- C4: the claim says an inbound `find_value` always returns the 4-tuple
`(value, expiration, neighbor_list, own_id)`, neighbours included even when
the node holds the value.  On the code this fails the same way as C1: with
key 5 held in the local store `(42, expiring at 100)` but absent from the
routing table, `rpc_find_value` propagates `rpc_find_node`'s
`AttributeError` on `self.node_id` instead of returning the 4-tuple. -/
theorem rpc_find_value_crashes_despite_holding_value :
    protocolWithValue.node.localStore.get 5 0 = (some 42, some 100) ∧
    rpc_find_value protocolWithValue (9, 9) 7 5 0 =
      (⟨[(7, (9, 9))]⟩, Except.error (PyError.attributeError "node_id")) := by
  exact ⟨rfl, rfl⟩

/-- C5 (amended): on every run in which construction completes its two waits
— `bootstrap` returns a trace instead of raising — phase 1 waited
`min m wait_timeout` where `m` is the earliest ping completion, the second
wait received the timeout `bootstrap_timeout` minus the elapsed time, and
exactly the pings still pending after the second wait (those completing
after `max bootstrap_timeout t1`) were cancelled.  The claim as stated also
covers runs whose pings all finish by the end of the first wait, where the
second `asyncio.wait` receives an empty set and raises `ValueError` instead
(see the counterexample below). -/
theorem bootstrap_two_phase_wait
    (nodeId : DHTID) (initialPeers : List PingTask) (w B m : Int)
    (tr : BootstrapTrace)
    (hmin : (initialPeers.map (fun t => t.completesAt)).min? = some m)
    (hok : bootstrap nodeId initialPeers w B = Except.ok tr) :
    tr.phase1Elapsed = min m w ∧
    tr.phase2Timeout = B - tr.phase1Elapsed ∧
    ∀ t ∈ initialPeers,
      (t ∈ tr.cancelled ↔ max B tr.phase1Elapsed < t.completesAt) := by
  have h1 : firstCompletedElapsed initialPeers w = min m w := by
    unfold firstCompletedElapsed
    rw [hmin]
    show (if m ≤ w then m else w) = min m w
    split <;> omega
  obtain ⟨htr, _⟩ := bootstrap_ok_inv hok
  subst htr
  refine ⟨h1, rfl, ?_⟩
  intro t ht
  simp only [waitSplit, List.mem_filter, decide_eq_true_eq]
  constructor
  · intro hmem
    obtain ⟨⟨_, ha⟩, hb⟩ := hmem
    omega
  · intro hgt
    refine ⟨⟨ht, ?_⟩, ?_⟩ <;> omega

/-- C5 witness: the two-phase theorem applied to two concrete peers with
completion times 2 and 10, `wait_timeout = 5`, `bootstrap_timeout = 8`, a
run that completes both waits and cancels the straggler. -/
theorem bootstrap_two_phase_wait_witness :
    (examplePeers.map (fun t => t.completesAt)).min? = some 2 ∧
    bootstrap 42 examplePeers 5 8 = Except.ok exampleBootTrace ∧
    (exampleBootTrace.phase1Elapsed = min 2 5 ∧
      exampleBootTrace.phase2Timeout = 8 - exampleBootTrace.phase1Elapsed ∧
      ∀ t ∈ examplePeers,
        (t ∈ exampleBootTrace.cancelled ↔
          max 8 exampleBootTrace.phase1Elapsed < t.completesAt)) :=
  ⟨by decide, by rfl,
    bootstrap_two_phase_wait 42 examplePeers 5 8 2 exampleBootTrace
      (by decide) (by rfl)⟩

/-- C5 counterexample: a single initial peer answering at time 2, within
`wait_timeout = 5`, leaves no ping pending after the first wait; the second
`asyncio.wait` is handed an empty set and node construction raises
`ValueError` — there is no second-wave wait and no cancellation step. -/
theorem bootstrap_fast_ping_raises_at_second_wait :
    bootstrap 42 soloPeer 5 8 =
      Except.error (PyError.valueError "Set of Tasks/Futures is empty") := by
  rfl

/-- C6 (amended): when the initial peer list is non-empty, no ping task
returns an identifier, and construction survives its two waits —
`bootstrap` returns a trace instead of raising — the warning flag is set and
construction still proceeds to the final step, the lookup for the node's own
identifier.  The claim's unconditional "does not fail" is refuted by the
counterexample below, where the only ping finishes within `wait_timeout` and
the second `asyncio.wait` raises `ValueError` before the warning. -/
theorem bootstrap_zero_responders_warns_and_proceeds
    (nodeId : DHTID) (initialPeers : List PingTask) (w B : Int)
    (tr : BootstrapTrace)
    (hnone : ∀ t ∈ initialPeers, t.result = none)
    (hok : bootstrap nodeId initialPeers w B = Except.ok tr) :
    tr.warned = true ∧ tr.finalLookupTarget = nodeId := by
  obtain ⟨htr, hne⟩ := bootstrap_ok_inv hok
  subst htr
  refine ⟨?_, rfl⟩
  have hids : (((waitSplit initialPeers
      (firstCompletedElapsed initialPeers w)).1 ++
      (waitSplit (waitSplit initialPeers
        (firstCompletedElapsed initialPeers w)).2
        (firstCompletedElapsed initialPeers w +
          max (B - firstCompletedElapsed initialPeers w) 0)).1).filterMap
      (fun t => t.result)) = [] := by
    rw [List.filterMap_eq_nil_iff]
    intro t ht
    apply hnone
    rcases List.mem_append.1 ht with h | h
    · exact waitSplit_done_subset h
    · exact waitSplit_pending_subset (waitSplit_done_subset h)
  show ((((waitSplit initialPeers
      (firstCompletedElapsed initialPeers w)).1 ++
      (waitSplit (waitSplit initialPeers
        (firstCompletedElapsed initialPeers w)).2
        (firstCompletedElapsed initialPeers w +
          max (B - firstCompletedElapsed initialPeers w) 0)).1).filterMap
      (fun t => t.result)).isEmpty && !initialPeers.isEmpty) = true
  rw [hids, hne]
  rfl

/-- C6 witness: the amended theorem applied to two concrete silent peers
whose ping tasks finish at times 1 and 6: the second wait still has a
pending task, so construction completes, warns, and reaches the self-lookup. -/
theorem bootstrap_zero_responders_warns_and_proceeds_witness :
    (∀ t ∈ silentPairPeers, t.result = none) ∧
    bootstrap 42 silentPairPeers 5 8 = Except.ok silentBootTrace ∧
    (silentBootTrace.warned = true ∧ silentBootTrace.finalLookupTarget = 42) :=
  ⟨by decide, by rfl,
    bootstrap_zero_responders_warns_and_proceeds 42 silentPairPeers 5 8
      silentBootTrace (by decide) (by rfl)⟩

/-- C6 counterexample: a single silent peer whose ping task finishes at time
1, within `wait_timeout = 5`, leaves the second `asyncio.wait` an empty set:
despite the non-empty `initial_peers` with zero responders, construction
raises `ValueError` — it fails before emitting the warning and before the
final self-lookup, contradicting the claim as stated. -/
theorem bootstrap_silent_peer_raises_before_warning :
    bootstrap 42 silentPeers 5 8 =
      Except.error (PyError.valueError "Set of Tasks/Futures is empty") := by
  rfl

/-- C7: the claim says `refresh_stale_buckets` issues one lookup per stale
bucket, targeted inside the bucket's range.  The code does select exactly the
buckets with `last_updated < now - staleness_timeout` (here the first bucket
only, at `now = 1000`, `staleness_timeout = 600`), but then raises —
`random.randint` is an `AttributeError` because node.py imports the function
`random`, and the method is in any case a `NotImplementedError` stub — so no
lookup is ever issued. -/
theorem refresh_stale_buckets_raises_on_stale_bucket :
    staleBucketsOf exampleBuckets 600 1000 = [⟨0, 16, 100⟩] ∧
    refresh_stale_buckets exampleBuckets 600 1000 =
      Except.error (PyError.attributeError "randint") := by
  exact ⟨rfl, rfl⟩

/-- C8: the claim (and the docstring at protocol.py line 98) says a
`call_find_value` whose recipient does not respond returns
`(None, None, [])`.  The function can never execute — it is a plain `def`
containing `await` at line 100, which Python rejects at compile time — so it
never returns anything; its body as written would have returned exactly
`(None, None, [])` after registering the failed contact. -/
theorem call_find_value_no_response_never_returns :
    call_find_value (2, 2) 10 none = Except.error PyError.awaitOutsideAsync ∧
    call_find_value_body (2, 2) 10 none =
      ([RegisterEvent.toPeer (2, 2) none false], (none, none, [])) := by
  exact ⟨rfl, rfl⟩

/-- C9: whenever the target of an inbound `find_node` is not directly known
in the routing table (after the sender is recorded), the fallback branch
evaluates `self.node_id`, an attribute `KademliaProtocol.__init__` never
defines, so the handler raises `AttributeError` instead of returning the
neighbour list. -/
theorem rpc_find_node_unknown_target_attribute_error
    (p : KademliaProtocol) (sender : Endpoint) (senderId keyNode : DHTID)
    (h : (p.routing_table.register_request_from sender senderId).contains
      keyNode = false) :
    (rpc_find_node p sender senderId keyNode).2 =
      Except.error (PyError.attributeError "node_id") := by
  unfold rpc_find_node
  simp [h]

/-- C9 witness: the `AttributeError` theorem applied to a concrete request
for target 6 from sender 7 against the empty routing table. -/
theorem rpc_find_node_unknown_target_attribute_error_witness :
    (exampleProtocol.routing_table.register_request_from (9, 9) 7).contains 6
        = false ∧
    (rpc_find_node exampleProtocol (9, 9) 7 6).2 =
      Except.error (PyError.attributeError "node_id") :=
  ⟨by decide, rpc_find_node_unknown_target_attribute_error exampleProtocol
    (9, 9) 7 6 (by decide)⟩

/-- C10: when a sender asks `find_node` for its own identifier and that
identifier is in the routing table after the sender is recorded, the
directly-known branch returns the sender itself as the single result — it
short-circuits before the sender-exclusion of the nearest-neighbours
branch. -/
theorem rpc_find_node_returns_sender_for_own_id
    (p : KademliaProtocol) (sender : Endpoint) (senderId : DHTID)
    (h : (p.routing_table.register_request_from sender senderId).contains
      senderId = true) :
    (rpc_find_node p sender senderId senderId).2 =
      Except.ok ([(senderId,
        ((p.routing_table.register_request_from sender senderId).findEndpoint
          senderId).getD (0, 0))], p.node.id) := by
  unfold rpc_find_node
  simp [h]

/-- C10 witness: the self-target theorem applied to sender 7 at (9, 9)
against the empty routing table, where recording the sender makes 7 known. -/
theorem rpc_find_node_returns_sender_for_own_id_witness :
    (exampleProtocol.routing_table.register_request_from (9, 9) 7).contains 7
        = true ∧
    (rpc_find_node exampleProtocol (9, 9) 7 7).2 =
      Except.ok ([(7,
        ((exampleProtocol.routing_table.register_request_from (9, 9) 7).findEndpoint
          7).getD (0, 0))], exampleProtocol.node.id) :=
  ⟨by decide, rpc_find_node_returns_sender_for_own_id exampleProtocol
    (9, 9) 7 (by decide)⟩

end Hivemind
